import Mathlib

/-!
# Verification of the GenAI-PoD retry/orchestration core

Shallow embedding of the retry/recovery orchestration layer of the
GenAI-PoD pipeline (`genai_pod/utils.py`, `genai_pod/generators/generate_gpt.py`,
`genai/utilitys/bg_remove.py`, `genai_pod/utilitys/bigjpg_upscaler.py`),
together with proofs of the testable properties stated in the design
specification.

External effects (Selenium calls, HTTP requests, the filesystem, random
choice) are modelled by explicit oracles: an oracle value records the
outcome the external world produced for one call, and the embedded
function is the fold of the source control flow over those outcomes.
-/

namespace GenaiPod

/-! ## String cleaning (`genai_pod/utils.py`, `clean_string`)

`clean_string` is `re.sub(r'[\\/*?:"<>|]', "", string)`: every character in
the nine-character class is deleted, everything else kept in order. -/

/-- The character class of the regex `[\\/*?:"<>|]` in `clean_string`. -/
def forbiddenChar (c : Char) : Bool :=
  c = '\\' || c = '/' || c = '*' || c = '?' || c = ':' ||
  c = '"' || c = '<' || c = '>' || c = '|'

/-- Model of `clean_string` from `genai_pod/utils.py`: removes every occurrence of
the characters in the regex class, keeping all other characters in order. -/
def clean_string (s : String) : String :=
  ⟨s.data.filter (fun c => !forbiddenChar c)⟩

/-! ## Metadata write (`genai_pod/utils.py`, `write_metadata`)

The three files are opened in append mode (`"a"`) and `f"{value}\n"` is
written; a file that does not yet exist starts empty.  A directory's
text-file state is modelled by the current contents of the three
metadata files. -/

/-- Contents of the three metadata files of one job directory. -/
structure MetadataFiles where
  titleFile : String
  descriptionFile : String
  tagsFile : String
  deriving DecidableEq

/-- Model of `write_metadata` from `genai_pod/utils.py`: appends `value ++ "\n"`
to each of `title.txt`, `tags.txt` and `description.txt`. -/
def write_metadata (title description tags : String)
    (d : MetadataFiles) : MetadataFiles :=
  { titleFile := d.titleFile ++ title ++ "\n"
    tagsFile := d.tagsFile ++ tags ++ "\n"
    descriptionFile := d.descriptionFile ++ description ++ "\n" }

/-! ## Rate-limit time parsing (`generate_gpt.py`, `_parse_time`)

Instants are seconds in the Europe/Berlin local timeline; a date is the
instant's day number `now / 86400`.  `_parse_time` builds today's date at
the parsed clock time (seconds zeroed, as `strptime "%I:%M %p"` yields no
seconds) and advances one day when that instant is `<= now`. -/

/-- Model of `_parse_time` from `generate_gpt.py`, on seconds since the epoch of the
Berlin local timeline: the parsed clock time (`hour:minute`) placed on
`now`'s date, pushed one day later when not strictly after `now`. -/
def parse_time (now : Nat) (hour minute : Nat) : Nat :=
  let target := (now / 86400) * 86400 + hour * 3600 + minute * 60
  if target ≤ now then target + 86400 else target

/-! ## Rate-limit wait (`generate_gpt.py`, `_wait_until_time`)

The function sleeps one second `int(total_wait_seconds)` times when the
wait is positive and then always raises
`AbortScriptError("Usage limit reached and waiting time elapsed.")`. -/

/-- Result of `_wait_until_time`: seconds actually slept, paired with the
outcome of the call — it always ends in the raised `AbortScriptError`. -/
def wait_until_time (now target : Int) : Nat × Except String Unit :=
  let totalWait := target - now
  (if totalWait > 0 then totalWait.toNat else 0,
   Except.error "Usage limit reached and waiting time elapsed.")

/-! ## Upload dispatching (`genai_pod/utils.py`, `process_subdir`)

A WorkItem subfolder is modelled by the image files it contains (in the
glob order `*.png`, `*.jpg`, `*.jpeg` used by `find_image_file`) and the
optional contents of the three metadata files (`none` models a missing
file, whose `open` raises `FileNotFoundError`). -/

/-- Filesystem view of one WorkItem subfolder. -/
structure Folder where
  pngs : List String
  jpgs : List String
  jpegs : List String
  titleTxt : Option String
  descriptionTxt : Option String
  tagsTxt : Option String
  deriving DecidableEq

/-- Model of `find_image_file` from `genai_pod/utils.py`: the first file matching
`*.png`, then `*.jpg`, then `*.jpeg`; raises `FileNotFoundError`
(modelled as `Except.error`) when none exists. -/
def find_image_file (f : Folder) : Except String String :=
  match f.pngs with
  | p :: _ => Except.ok p
  | [] =>
    match f.jpgs with
    | p :: _ => Except.ok p
    | [] =>
      match f.jpegs with
      | p :: _ => Except.ok p
      | [] => Except.error "No image file found"

/-- Model of `read_file_contents` from `genai_pod/utils.py`: returns the stripped
contents, raising `FileNotFoundError` when the file is absent.  Stripping
is kept abstract (the oracle already holds the stripped text). -/
def read_file_contents (contents : Option String) : Except String String :=
  match contents with
  | some s => Except.ok s
  | none => Except.error "FileNotFoundError"

/-- Outcome of one call of the upload function: a returned boolean or a
raised exception. -/
inductive UploadOutcome where
  | returns (b : Bool)
  | raises
  deriving DecidableEq

/-- The archive a folder is moved into. -/
inductive MoveTarget where
  | used
  | error
  deriving DecidableEq

/-- Observable result of `process_subdir`: the `shutil.move` calls it
performed (in order), whether the upload function was invoked, and its
return value. -/
structure ProcessResult where
  moves : List MoveTarget
  uploadInvoked : Bool
  returned : Bool
  deriving DecidableEq

/-- Model of `process_subdir` from `genai_pod/utils.py`: find the image file, read
`description.txt`, `tags.txt` and `title.txt`, call the upload function,
and move the subfolder to the used folder on `True` and to the error
folder on `False`; any `FileNotFoundError` or other exception moves the
subfolder to the error folder and returns `False`. -/
def process_subdir (f : Folder) (upload : UploadOutcome) : ProcessResult :=
  match find_image_file f with
  | Except.error _ => { moves := [.error], uploadInvoked := false, returned := false }
  | Except.ok _ =>
    match read_file_contents f.descriptionTxt with
    | Except.error _ => { moves := [.error], uploadInvoked := false, returned := false }
    | Except.ok _ =>
      match read_file_contents f.tagsTxt with
      | Except.error _ => { moves := [.error], uploadInvoked := false, returned := false }
      | Except.ok _ =>
        match read_file_contents f.titleTxt with
        | Except.error _ => { moves := [.error], uploadInvoked := false, returned := false }
        | Except.ok _ =>
          match upload with
          | .returns true => { moves := [.used], uploadInvoked := true, returned := true }
          | .returns false => { moves := [.error], uploadInvoked := true, returned := false }
          | .raises => { moves := [.error], uploadInvoked := true, returned := false }

/-- A folder has all three metadata files. -/
def hasAllMetadata (f : Folder) : Bool :=
  f.titleTxt.isSome && f.descriptionTxt.isSome && f.tagsTxt.isSome

/-- Number of image files in the folder (all three glob patterns). -/
def imageCount (f : Folder) : Nat :=
  f.pngs.length + f.jpgs.length + f.jpegs.length

/-- The spec's validation predicate for the Upload Dispatcher: exactly one
image file and all three metadata files. -/
def specExactlyOneValidation (f : Folder) : Bool :=
  imageCount f = 1 && hasAllMetadata f

/-! ## Generation loop and driver registry (`generate_gpt.py`)

Browser drivers are identified by the order of their creation
(`GenState.nextId` is the id the next `start_chrome` will return).  The
module-level list `active_drivers` is the registry; `quitLog` records
every `driver.quit()` call.  One iteration of the `while retries <
max_retries` loop of `generate_image_selenium_gpt` is `runCycle`,
parameterised by the outcome the external world produced for that
cycle. -/

/-- State threaded through the generation loop: the `active_drivers`
registry, the next fresh driver id, and the log of quit drivers. -/
structure GenState where
  registry : List Nat
  nextId : Nat
  quitLog : List Nat
  deriving DecidableEq

/-- Outcome of one cycle of the `generate_image_selenium_gpt` loop. -/
inductive CycleOutcome where
  /-- Scrape, chat generation and post-processing all succeeded. -/
  | success
  /-- Outcome where `_scrape_vexels_image` returned `None`, so the loop body raised
  `AbortScriptError("Error scraping the image from vexels.com")`. -/
  | scrapeAbort
  /-- An `AbortScriptError` was raised during the ChatGPT phase (after a
  successful scrape). -/
  | generateAbort
  /-- A non-`AbortScriptError` exception escaped the cycle body. -/
  | otherError
  deriving DecidableEq

/-- Model of `AbortScriptError.close_all_drivers` from `generate_gpt.py`: quits
every driver in `active_drivers` and reassigns the global to `[]`.  The
generic `except Exception` handler of the loop performs the same effect
(`driver.quit()` for each, then `active_drivers.clear()`). -/
def closeAllDrivers (s : GenState) : GenState :=
  { registry := [], nextId := s.nextId, quitLog := s.quitLog ++ s.registry }

/-- One iteration of the retry loop of `generate_image_selenium_gpt`.
Returns the state after the iteration and whether the loop `break`s
(success).

Registry traffic per the source: the loop body appends the scrape driver
(line 802), `_scrape_vexels_image` appends the same driver again (line
588) and its `finally` quits it; on scrape success the body quits it and
`remove`s one occurrence; `_start_chat_gpt` appends the chat driver (line
67) and the body appends it again (line 812); `_start_generating` quits
the chat driver before post-processing, and on success the body `remove`s
one occurrence.  Both exception handlers quit everything registered and
empty the registry. -/
def runCycle (s : GenState) (o : CycleOutcome) : GenState × Bool :=
  let d1 := s.nextId
  -- start_chrome("Default") + the two appends of the scrape driver
  let s1 : GenState :=
    { registry := s.registry ++ [d1, d1], nextId := d1 + 1, quitLog := s.quitLog }
  match o with
  | .scrapeAbort =>
    -- scrape's finally quits d1 (no registry removal), then the raised
    -- AbortScriptError is handled by err.close_all_drivers()
    (closeAllDrivers { s1 with quitLog := s1.quitLog ++ [d1] }, false)
  | .otherError =>
    -- generic handler: quit each registered driver, clear the registry
    (closeAllDrivers s1, false)
  | .generateAbort =>
    -- scrape success: quit d1 and remove one occurrence; chat driver d2
    -- appended twice; AbortScriptError raised during generation
    let d2 := s1.nextId
    let s2 : GenState :=
      { registry := (s1.registry.erase d1) ++ [d2, d2]
        nextId := d2 + 1
        quitLog := s1.quitLog ++ [d1] }
    (closeAllDrivers s2, false)
  | .success =>
    -- scrape success as above; _start_generating quits d2; the body
    -- removes one occurrence of d2 and breaks
    let d2 := s1.nextId
    ({ registry := ((s1.registry.erase d1) ++ [d2, d2]).erase d2
       nextId := d2 + 1
       quitLog := s1.quitLog ++ [d1, d2] }, true)

/-- The `while retries < max_retries` loop of `generate_image_selenium_gpt`,
with `fuel = max_retries - retries` remaining iterations.  Returns the
final state and the number of cycle bodies executed.  `oracle n` is the
outcome of the cycle run at `retries = n`. -/
def genLoopRun (fuel : Nat) (oracle : Nat → CycleOutcome) (retries : Nat)
    (s : GenState) : GenState × Nat :=
  match fuel with
  | 0 => (s, 0)
  | f + 1 =>
    let r := runCycle s (oracle retries)
    if r.2 then (r.1, 1)
    else
      let rest := genLoopRun f oracle (retries + 1) r.1
      (rest.1, rest.2 + 1)

/-- Entry point `generate_image_selenium_gpt`: runs the loop with `max_retries = 5`
starting from `retries = 0`. -/
def generate_image_selenium_gpt (oracle : Nat → CycleOutcome)
    (s : GenState) : GenState × Nat :=
  genLoopRun 5 oracle 0 s

/-! ## Text extraction (`generate_gpt.py`, `_get_text_from_element`)

The `for attempt in range(retries)` loop (default `retries = 10`) runs
one DOM retrieval per iteration: return the stripped text if non-empty,
raise `AbortScriptError` on a detected bad gateway or when the handlers
raise, otherwise sleep and go to the next attempt — raising after the
last one. -/

/-- Outcome of one retrieval attempt in `_get_text_from_element`. -/
inductive TextFetch where
  /-- Outcome where `execute_script` returned `s` (already a string). -/
  | script (s : String)
  /-- Outcome where a `NoSuchElementException`/`TimeoutException` occurred, and both
  `_handle_errors` and the `_bad_gateway` check passed without raising. -/
  | recoverable
  /-- The attempt ended in a raised `AbortScriptError` (bad gateway, or a
  usage-limit wait elapsing inside `_handle_errors`). -/
  | handlerAbort (msg : String)
  deriving DecidableEq

/-- The retry loop of `_get_text_from_element`: result of the call
(`Except.error` models a raised `AbortScriptError`) paired with the
number of retrieval attempts executed. -/
def getTextLoop (fetch : Nat → TextFetch) :
    Nat → Nat → Except String String × Nat
  | 0, _ => (Except.error "Nothing is found after retries.", 0)
  | f + 1, attempt =>
    match fetch attempt with
    | .script s =>
      if (s.trim).isEmpty then
        -- falls through to the end-of-iteration branch
        if f = 0 then
          (Except.error "Failed to find the desired text after all retries.", 1)
        else
          let rest := getTextLoop fetch f (attempt + 1)
          (rest.1, rest.2 + 1)
      else (Except.ok s.trim, 1)
    | .handlerAbort msg => (Except.error msg, 1)
    | .recoverable =>
      if f = 0 then
        (Except.error "Failed to find the desired text after all retries.", 1)
      else
        let rest := getTextLoop fetch f (attempt + 1)
        (rest.1, rest.2 + 1)

/-- Model of `_get_text_from_element` with its default `retries = 10`. -/
def get_text_from_element (fetch : Nat → TextFetch) :
    Except String String × Nat :=
  getTextLoop fetch 10 0

/-! ## Background removal (`genai/utilitys/bg_remove.py`, `bg_remove`)

`for attempt in range(retries)` with default `retries = 2`: each
iteration runs `run_bg_remove` once; on success its path is returned, on
`AbortScriptError` the driver is closed and, on the last attempt, `None`
is returned. -/

/-- Outcome of one `run_bg_remove` invocation. -/
inductive BgAttempt where
  /-- Outcome where `run_bg_remove` returned a processed-image path. -/
  | ok (path : String)
  /-- Outcome where `run_bg_remove` raised `AbortScriptError`. -/
  | abortErr
  deriving DecidableEq

/-- The retry loop of `bg_remove`: result paired with the number of
`run_bg_remove` invocations. -/
def bgRemoveLoop (att : Nat → BgAttempt) : Nat → Nat → Option String × Nat
  | 0, _ => (none, 0)
  | f + 1, attempt =>
    match att attempt with
    | .ok p => (some p, 1)
    | .abortErr =>
      if f = 0 then (none, 1)
      else
        let rest := bgRemoveLoop att f (attempt + 1)
        (rest.1, rest.2 + 1)

/-- Model of `bg_remove` with its default `retries = 2`. -/
def bg_remove (att : Nat → BgAttempt) : Option String × Nat :=
  bgRemoveLoop att 2 0

/-! ## Vexels scrape (`generate_gpt.py`, `_scrape_vexels_image`)

`for attempt in range(10)` picks one random grid asset per iteration
(the oracle `picks` records the choices).  A candidate is skipped when an
exception occurs while examining it, when its (stripped) title is empty,
when a forbidden word is a substring of the lowercased title, or when the
image `src` attribute is missing; otherwise the image is downloaded to a
temp file whose name is returned.  A download failure propagates to the
outer `except Exception`, which returns `None`.  After ten rejected
candidates the function returns `None`; the caller in
`generate_image_selenium_gpt` then raises `AbortScriptError`. -/

/-- One candidate asset as the scrape loop observes it. -/
structure Candidate where
  /-- An exception (e.g. `WebDriverException`) occurred while examining
  this asset, so the iteration `continue`d. -/
  procError : Bool
  /-- The stripped `textContent` of the title element. -/
  title : List Char
  /-- The `src` attribute of the thumb image was `None`/empty. -/
  srcMissing : Bool
  /-- The `requests.get`/`raise_for_status` of the download failed. -/
  downloadFail : Bool
  /-- The `NamedTemporaryFile` name the download is saved under. -/
  tempPath : String

/-- Lowercasing as applied to titles and to the forbidden-word list. -/
def lowerChars (t : List Char) : List Char := t.map Char.toLower

/-- Whether `w` is an initial segment of `t`. -/
def leadsWith : List Char → List Char → Bool
  | [], _ => true
  | _ :: _, [] => false
  | a :: w, b :: t => a = b && leadsWith w t

/-- Python's `w in t` on strings: `w` occurs contiguously in `t`. -/
def containsSeq (w : List Char) : List Char → Bool
  | [] => w.isEmpty
  | b :: t => leadsWith w (b :: t) || containsSeq w t

/-- Model of `any(word in img_title.lower() for word in forbidden_words_list)`:
some configured word is a substring of the lowercased title. -/
def titleHasForbiddenWord (fwl : List (List Char)) (t : List Char) : Bool :=
  fwl.any (fun w => containsSeq w (lowerChars t))

/-- A candidate passes every filter of the loop body and its download
succeeds, so its temp-file path is returned. -/
def acceptCandidate (fwl : List (List Char)) (c : Candidate) : Bool :=
  !c.procError && !c.title.isEmpty && !titleHasForbiddenWord fwl c.title &&
  !c.srcMissing && !c.downloadFail

/-- The candidate loop of `_scrape_vexels_image`: the returned temp path
(or `none`) paired with the number of candidates examined. -/
def scrapeLoop (fwl : List (List Char)) (picks : Nat → Candidate) :
    Nat → Nat → Option String × Nat
  | 0, _ => (none, 0) -- "No suitable image found after filtering."
  | f + 1, attempt =>
    let c := picks attempt
    if c.procError || c.title.isEmpty || titleHasForbiddenWord fwl c.title ||
        c.srcMissing then
      let rest := scrapeLoop fwl picks f (attempt + 1)
      (rest.1, rest.2 + 1)
    else if c.downloadFail then
      -- raise_for_status propagates to the outer handler: return None
      (none, 1)
    else (some c.tempPath, 1)

/-- Model of `_scrape_vexels_image`: lowercases the loaded forbidden-word list
and runs the ten-attempt candidate loop. -/
def scrape_vexels_image (forbiddenWords : List (List Char))
    (picks : Nat → Candidate) : Option String × Nat :=
  scrapeLoop (forbiddenWords.map lowerChars) picks 10 0

/-- The caller's check in `generate_image_selenium_gpt`: a `None` scrape
result raises `AbortScriptError("Error scraping the image from
vexels.com")`. -/
def scrapeCallerResult (r : Option String) : Except String String :=
  match r with
  | none => Except.error "Error scraping the image from vexels.com"
  | some p => Except.ok p

/-! ## Path names, stems and suffixes (`pathlib.PurePath`)

`upscale_bigjpg` saves the upscaled image under
`f"{Path(image_path).stem}_upscaled.png"` in the output directory.  A
path is a directory (list of components) plus a file name (list of
characters); `stem`/`suffix` follow `pathlib`: the suffix starts at the
last `.` of the name provided that dot is neither the first nor the last
character, and is empty otherwise. -/

/-- A filesystem path: directory components plus the file name. -/
structure ImagePath where
  dir : List String
  name : List Char
  deriving DecidableEq

/-- Indices of `'.'` characters in a name. -/
def dotIdxs (name : List Char) : List Nat :=
  (List.range name.length).filter (fun i => name[i]? == some '.')

/-- The index of the last `'.'` in a name, if any. -/
def lastDotIdx (name : List Char) : Option Nat := (dotIdxs name).getLast?

/-- Whether the dot at index `i` yields a `pathlib` suffix: not the
leading character and not the trailing character. -/
def properDot (name : List Char) (i : Nat) : Bool :=
  decide (0 < i) && decide (i < name.length - 1)

/-- Model of `pathlib.PurePath.suffix` of a file name. -/
def pathSuffix (name : List Char) : List Char :=
  match lastDotIdx name with
  | some i => if properDot name i then name.drop i else []
  | none => []

/-- Model of `pathlib.PurePath.stem` of a file name. -/
def pathStem (name : List Char) : List Char :=
  match lastDotIdx name with
  | some i => if properDot name i then name.take i else name
  | none => name

/-- The name the upscaler saves under: `f"{stem}_upscaled"` passed as
title to `_download_and_process_image`, which appends `.png`. -/
def upscaledName (name : List Char) : List Char :=
  pathStem name ++ "_upscaled.png".data

/-- The path `_download_and_process_image` writes on success. -/
def upscaledPath (input : ImagePath) (outDir : List String) : ImagePath :=
  { dir := outDir, name := upscaledName input.name }

/-! ## Bigjpg upscaling (`genai_pod/utilitys/bigjpg_upscaler.py`)

`upscale_bigjpg` runs up to `retry_limit = 3` attempts.  Each attempt
ends in one of the outcomes below; the three too-big outcomes return the
original `image_path` immediately, a successful download breaks out of
the loop with the saved path, and every other outcome moves on to the
next attempt.  When the loop finishes with no result, the original path
is returned. -/

/-- Outcome of one attempt of the `for retry in range(retry_limit)` loop
of `upscale_bigjpg`. -/
inductive UpscaleOutcome where
  /-- Outcome where `handle_initial_status` saw the image-too-big banner. -/
  | initialTooBig
  /-- Outcome where `handle_post_upload_status` saw the image-too-big banner. -/
  | postUploadTooBig
  /-- Outcome where `monitor_progress` returned `"image_too_big"`. -/
  | progressTooBig
  /-- Outcome where `monitor_progress` returned `"success"` and a download URL was
  found; `_download_and_process_image` saved the upscaled file. -/
  | successDownload
  /-- Outcome where `monitor_progress` returned `"success"` but no download URL. -/
  | successNoUrl
  /-- A warning modal was detected (an exception is raised and caught). -/
  | warning
  /-- Any other exception (navigation timeout, stalled progress, ...). -/
  | exn
  deriving DecidableEq

/-- The attempt loop of `upscale_bigjpg` over the remaining attempt
outcomes. -/
def upscaleLoop (input : ImagePath) (outDir : List String) :
    List UpscaleOutcome → ImagePath
  | [] => input -- "Retry limit reached. Exiting..." with result = None
  | o :: rest =>
    match o with
    | .initialTooBig => input
    | .postUploadTooBig => input
    | .progressTooBig => input
    | .successDownload => upscaledPath input outDir
    | .successNoUrl => upscaleLoop input outDir rest
    | .warning => upscaleLoop input outDir rest
    | .exn => upscaleLoop input outDir rest

/-- Model of `upscale_bigjpg` with its `retry_limit = 3`. -/
def upscale_bigjpg (input : ImagePath) (outDir : List String)
    (outcomes : List UpscaleOutcome) : ImagePath :=
  upscaleLoop input outDir (outcomes.take 3)

/-- Model of `upscale` from `bigjpg_upscaler.py`: starts Tor, runs
`upscale_bigjpg`, and returns its result — the `result != image_path`
branch returns the new path and the `result == image_path` branch
returns the original; the restart branch is unreachable because
`upscale_bigjpg` never returns `None`. -/
def upscale (input : ImagePath) (outDir : List String)
    (outcomes : List UpscaleOutcome) : ImagePath :=
  upscale_bigjpg input outDir outcomes

/-- An attempt outcome that ends the loop (by early return or break). -/
def isTerminalOutcome (o : UpscaleOutcome) : Bool :=
  match o with
  | .initialTooBig => true
  | .postUploadTooBig => true
  | .progressTooBig => true
  | .successDownload => true
  | .successNoUrl => false
  | .warning => false
  | .exn => false

/-- Spec-side success predicate: within the three attempts, the first
loop-ending outcome is a successful download. -/
def upscaleSucceeded (outcomes : List UpscaleOutcome) : Bool :=
  (outcomes.take 3).find? isTerminalOutcome == some .successDownload

/-! ## Theorems -/

/-- C10: `clean_string s` is `s` with every occurrence of the characters
`\ / * ? : " < > |` removed and all other characters preserved in order,
and `clean_string` is idempotent. -/
theorem clean_string_filter_and_idempotent (s : String) :
    (clean_string s).data = s.data.filter (fun c => !forbiddenChar c) ∧
    clean_string (clean_string s) = clean_string s := by
  refine ⟨rfl, ?_⟩
  simp only [clean_string]
  congr 1
  simp [List.filter_filter, Bool.and_self]

/-- C9: `write_metadata` appends the given value followed by a newline to
each of `title.txt`, `description.txt` and `tags.txt`, and the previous
contents of each file are preserved unchanged as an initial segment —
no file is truncated or overwritten. -/
theorem write_metadata_append_only (title description tags : String)
    (d : MetadataFiles) :
    (write_metadata title description tags d).titleFile =
      d.titleFile ++ (title ++ "\n") ∧
    (write_metadata title description tags d).descriptionFile =
      d.descriptionFile ++ (description ++ "\n") ∧
    (write_metadata title description tags d).tagsFile =
      d.tagsFile ++ (tags ++ "\n") ∧
    d.titleFile.data <+: (write_metadata title description tags d).titleFile.data ∧
    d.descriptionFile.data <+:
      (write_metadata title description tags d).descriptionFile.data ∧
    d.tagsFile.data <+: (write_metadata title description tags d).tagsFile.data := by
  refine ⟨?_, ?_, ?_, ?_, ?_, ?_⟩
  · show d.titleFile ++ title ++ "\n" = _
    rw [String.append_assoc]
  · show d.descriptionFile ++ description ++ "\n" = _
    rw [String.append_assoc]
  · show d.tagsFile ++ tags ++ "\n" = _
    rw [String.append_assoc]
  · exact ⟨(title ++ "\n").data, by simp [write_metadata]⟩
  · exact ⟨(description ++ "\n").data, by simp [write_metadata]⟩
  · exact ⟨(tags ++ "\n").data, by simp [write_metadata]⟩

/-- C3: the target instant computed by `_parse_time` is the parsed clock
time on today's date when that instant is still strictly in the future,
and the same clock time on the next day otherwise; it is always strictly
in the future relative to `now`. -/
theorem parse_time_strictly_future (now hour minute : Nat)
    (hh : hour < 24) (hm : minute < 60) :
    parse_time now hour minute =
      (if (now / 86400) * 86400 + hour * 3600 + minute * 60 ≤ now
       then (now / 86400) * 86400 + hour * 3600 + minute * 60 + 86400
       else (now / 86400) * 86400 + hour * 3600 + minute * 60) ∧
    now < parse_time now hour minute := by
  refine ⟨rfl, ?_⟩
  dsimp only [parse_time]
  split <;> omega

/-- Witness for C3 at `now = 100000`, `hour = 1`, `minute = 30` (a reset
time already past on that day, pushed to the next day). -/
theorem parse_time_strictly_future_witness :
    (1 : Nat) < 24 ∧ (30 : Nat) < 60 ∧ 100000 < parse_time 100000 1 30 :=
  ⟨by decide, by decide,
    (parse_time_strictly_future 100000 1 30 (by decide) (by decide)).2⟩

/-- C4: `_wait_until_time` always ends in the raised `AbortScriptError` —
it never returns normally; it sleeps `int(target - now)` seconds when
that is positive, and sleeps not at all when the computed wait is zero
or negative. -/
theorem wait_until_time_always_aborts (now target : Int) :
    (wait_until_time now target).2 =
      Except.error "Usage limit reached and waiting time elapsed." ∧
    (wait_until_time now target).1 = (target - now).toNat ∧
    (target ≤ now → (wait_until_time now target).1 = 0) := by
  refine ⟨rfl, ?_, ?_⟩
  · dsimp only [wait_until_time]
    split
    · rfl
    · rename_i h
      rw [Int.toNat_of_nonpos (by omega)]
  · intro h
    dsimp only [wait_until_time]
    split
    · omega
    · rfl

/-- Witness for C4 at `now = 10`, `target = 3` (a non-positive wait):
the call sleeps zero seconds and still raises the abort. -/
theorem wait_until_time_always_aborts_witness :
    (3 : Int) ≤ 10 ∧ (wait_until_time 10 3).1 = 0 :=
  ⟨by decide, (wait_until_time_always_aborts 10 3).2.2 (by decide)⟩

/-- C1: `process_subdir` performs exactly one archive move; the move goes
to the success archive iff the upload function was invoked and returned
`True`; a `False` return or a raised exception always lands in the
failure archive; and an item missing the image or any metadata file
lands in the failure archive, never the success archive. -/
theorem process_subdir_exactly_one_archive (f : Folder) (u : UploadOutcome) :
    (process_subdir f u).moves.length = 1 ∧
    ((process_subdir f u).moves = [MoveTarget.used] ↔
      ((process_subdir f u).uploadInvoked = true ∧
        u = UploadOutcome.returns true)) ∧
    ((u = UploadOutcome.returns false ∨ u = UploadOutcome.raises) →
      (process_subdir f u).moves = [MoveTarget.error]) ∧
    ((imageCount f = 0 ∨ f.titleTxt = none ∨ f.descriptionTxt = none ∨
        f.tagsTxt = none) →
      (process_subdir f u).moves = [MoveTarget.error]) := by
  rcases f with ⟨pngs, jpgs, jpegs, t, d, g⟩
  rcases u with (_ | _) | _ <;>
    cases pngs <;> cases jpgs <;> cases jpegs <;>
    cases t <;> cases d <;> cases g <;>
    simp [process_subdir, find_image_file, read_file_contents, imageCount,
      hasAllMetadata]

/-- Witness for C1: a folder whose `tags.txt` is missing is moved to the
failure archive even though the upload function would have returned
`True`. -/
theorem process_subdir_exactly_one_archive_witness :
    (process_subdir ⟨["a.png"], [], [], some "t", some "d", none⟩
        (UploadOutcome.returns true)).moves = [MoveTarget.error] :=
  (process_subdir_exactly_one_archive
      ⟨["a.png"], [], [], some "t", some "d", none⟩
      (UploadOutcome.returns true)).2.2.2 (Or.inr (Or.inr (Or.inr rfl)))

/-- C8 counterexample: a folder with two image files and complete
metadata still has the upload function invoked, although the spec's
"exactly one image file" validation fails for it — `process_subdir` only
checks that at least one image exists (it takes the first glob match). -/
theorem upload_invoked_despite_two_images :
    (process_subdir ⟨["a.png", "b.png"], [], [], some "t", some "d", some "g"⟩
        (UploadOutcome.returns true)).uploadInvoked = true ∧
    specExactlyOneValidation
        ⟨["a.png", "b.png"], [], [], some "t", some "d", some "g"⟩ = false :=
  ⟨rfl, rfl⟩

/-- C8 (amended): the upload function is invoked exactly when the folder
contains at least one image file and all three metadata files. -/
theorem upload_invoked_iff_validation (f : Folder) (u : UploadOutcome) :
    (process_subdir f u).uploadInvoked = true ↔
      (0 < imageCount f ∧ hasAllMetadata f = true) := by
  rcases f with ⟨pngs, jpgs, jpegs, t, d, g⟩
  rcases u with (_ | _) | _ <;>
    cases pngs <;> cases jpgs <;> cases jpegs <;>
    cases t <;> cases d <;> cases g <;>
    simp [process_subdir, find_image_file, read_file_contents, imageCount,
      hasAllMetadata]

/-- Witness for C8 (amended) on a complete folder: the upload is
invoked. -/
theorem upload_invoked_iff_validation_witness :
    (process_subdir ⟨["a.png"], [], [], some "t", some "d", some "g"⟩
        (UploadOutcome.returns false)).uploadInvoked = true :=
  (upload_invoked_iff_validation
      ⟨["a.png"], [], [], some "t", some "d", some "g"⟩
      (UploadOutcome.returns false)).mpr ⟨by decide, rfl⟩

/-- C2: whenever a cycle of the generation loop ends in an
`AbortScriptError` or any other exception, the `active_drivers` registry
is empty immediately after the abort handling completes, every driver
registered before the cycle has been quit, and so has the scrape driver
opened by the cycle. -/
theorem abort_handling_empties_registry (s : GenState) (o : CycleOutcome)
    (h : o ≠ CycleOutcome.success) :
    (runCycle s o).1.registry = [] ∧
    (∀ d ∈ s.registry, d ∈ (runCycle s o).1.quitLog) ∧
    s.nextId ∈ (runCycle s o).1.quitLog := by
  cases o with
  | success => exact absurd rfl h
  | scrapeAbort =>
    refine ⟨rfl, ?_, ?_⟩
    · simp [runCycle, closeAllDrivers]
      intro d hd
      tauto
    · simp [runCycle, closeAllDrivers]
  | otherError =>
    refine ⟨rfl, ?_, ?_⟩
    · simp [runCycle, closeAllDrivers]
      intro d hd
      tauto
    · simp [runCycle, closeAllDrivers]
  | generateAbort =>
    refine ⟨rfl, ?_, ?_⟩
    · intro d hd
      show d ∈ (s.quitLog ++ [s.nextId]) ++
        (((s.registry ++ [s.nextId, s.nextId]).erase s.nextId) ++
          [s.nextId + 1, s.nextId + 1])
      by_cases hde : d = s.nextId
      · exact List.mem_append_left _
          (List.mem_append_right _ (by simp [hde]))
      · exact List.mem_append_right _
          (List.mem_append_left _
            ((List.mem_erase_of_ne hde).mpr (List.mem_append_left _ hd)))
    · show s.nextId ∈ (s.quitLog ++ [s.nextId]) ++ _
      exact List.mem_append_left _ (List.mem_append_right _ (by simp))

/-- Witness for C2: a cycle starting with one stale registered driver and
aborting during scrape leaves the registry empty. -/
theorem abort_handling_empties_registry_witness :
    CycleOutcome.scrapeAbort ≠ CycleOutcome.success ∧
    (runCycle ⟨[7], 3, []⟩ CycleOutcome.scrapeAbort).1.registry = [] :=
  ⟨by decide,
    (abort_handling_empties_registry ⟨[7], 3, []⟩ CycleOutcome.scrapeAbort
      (by decide)).1⟩

/-- The generation loop executes at most `fuel` cycle bodies. -/
theorem genLoopRun_count_le (oracle : Nat → CycleOutcome) :
    ∀ (fuel retries : Nat) (s : GenState),
      (genLoopRun fuel oracle retries s).2 ≤ fuel := by
  intro fuel
  induction fuel with
  | zero => intro retries s; simp [genLoopRun]
  | succ f ih =>
    intro retries s
    dsimp only [genLoopRun]
    split
    · exact Nat.one_le_iff_ne_zero.mpr (by omega)
    · exact Nat.succ_le_succ (ih (retries + 1) _)

/-- The text-extraction loop executes at most `fuel` retrieval
attempts. -/
theorem getTextLoop_count_le (fetch : Nat → TextFetch) :
    ∀ (fuel attempt : Nat), (getTextLoop fetch fuel attempt).2 ≤ fuel := by
  intro fuel
  induction fuel with
  | zero => intro attempt; simp [getTextLoop]
  | succ f ih =>
    intro attempt
    dsimp only [getTextLoop]
    split
    · split
      · split
        · omega
        · exact Nat.succ_le_succ (ih (attempt + 1))
      · omega
    · omega
    · split
      · omega
      · exact Nat.succ_le_succ (ih (attempt + 1))

/-- The background-removal loop executes at most `fuel` runs. -/
theorem bgRemoveLoop_count_le (att : Nat → BgAttempt) :
    ∀ (fuel attempt : Nat), (bgRemoveLoop att fuel attempt).2 ≤ fuel := by
  intro fuel
  induction fuel with
  | zero => intro attempt; simp [bgRemoveLoop]
  | succ f ih =>
    intro attempt
    dsimp only [bgRemoveLoop]
    split
    · omega
    · split
      · omega
      · exact Nat.succ_le_succ (ih (attempt + 1))

/-- C5: the generation loop runs at most 5 job cycles, the chat text
extraction performs at most 10 retrieval attempts, and background
removal performs at most 2 runs. -/
theorem retry_bounds (oracle : Nat → CycleOutcome) (s : GenState)
    (fetch : Nat → TextFetch) (att : Nat → BgAttempt) :
    (generate_image_selenium_gpt oracle s).2 ≤ 5 ∧
    (get_text_from_element fetch).2 ≤ 10 ∧
    (bg_remove att).2 ≤ 2 :=
  ⟨genLoopRun_count_le oracle 5 0 s,
   getTextLoop_count_le fetch 10 0,
   bgRemoveLoop_count_le att 2 0⟩

/-- The scrape candidate loop examines at most `fuel` candidates. -/
theorem scrapeLoop_count_le (fwl : List (List Char)) (picks : Nat → Candidate) :
    ∀ (fuel attempt : Nat), (scrapeLoop fwl picks fuel attempt).2 ≤ fuel := by
  intro fuel
  induction fuel with
  | zero => intro attempt; simp [scrapeLoop]
  | succ f ih =>
    intro attempt
    dsimp only [scrapeLoop]
    split
    · exact Nat.succ_le_succ (ih (attempt + 1))
    · split
      · omega
      · omega

/-- A path returned by the scrape candidate loop is the temp file of an
accepted candidate among the examined ones. -/
theorem scrapeLoop_some_accepted (fwl : List (List Char))
    (picks : Nat → Candidate) :
    ∀ (fuel attempt : Nat) (p : String),
      (scrapeLoop fwl picks fuel attempt).1 = some p →
      ∃ i, attempt ≤ i ∧ i < attempt + fuel ∧
        acceptCandidate fwl (picks i) = true ∧ p = (picks i).tempPath := by
  intro fuel
  induction fuel with
  | zero => intro attempt p hp; simp [scrapeLoop] at hp
  | succ f ih =>
    intro attempt p hp
    dsimp only [scrapeLoop] at hp
    split at hp
    · obtain ⟨i, hi1, hi2, hi3, hi4⟩ := ih (attempt + 1) p hp
      exact ⟨i, by omega, by omega, hi3, hi4⟩
    · split at hp
      · simp at hp
      · rename_i hfilter hdl
        refine ⟨attempt, Nat.le_refl _, by omega, ?_, by
          simpa using hp.symm⟩
        simp only [Bool.or_eq_true, not_or, Bool.not_eq_true] at hfilter
        obtain ⟨⟨⟨h1, h2⟩, h3⟩, h4⟩ := hfilter
        have h5 : (picks attempt).downloadFail = false := by simpa using hdl
        simp [acceptCandidate, h1, h2, h3, h4, h5]

/-- When every examined candidate is rejected, the scrape loop returns
`none`. -/
theorem scrapeLoop_all_rejected_none (fwl : List (List Char))
    (picks : Nat → Candidate) :
    ∀ (fuel attempt : Nat),
      (∀ i, attempt ≤ i → i < attempt + fuel →
        acceptCandidate fwl (picks i) = false) →
      (scrapeLoop fwl picks fuel attempt).1 = none := by
  intro fuel
  induction fuel with
  | zero => intro attempt _; simp [scrapeLoop]
  | succ f ih =>
    intro attempt hrej
    dsimp only [scrapeLoop]
    split
    · exact ih (attempt + 1) (fun i h1 h2 => hrej i (by omega) (by omega))
    · split
      · rfl
      · rename_i hfilter hdl
        exfalso
        have hacc := hrej attempt (Nat.le_refl _) (by omega)
        simp only [Bool.or_eq_true, not_or, Bool.not_eq_true] at hfilter
        obtain ⟨⟨⟨h1, h2⟩, h3⟩, h4⟩ := hfilter
        have h5 : (picks attempt).downloadFail = false := by simpa using hdl
        simp [acceptCandidate, h1, h2, h3, h4, h5] at hacc

/-- C6: the scrape stage examines at most 10 candidates; any returned
path is the downloaded temp file of a candidate that passed every filter
(non-empty title, no forbidden word in the lowercased title, image source
present); and if all 10 candidates are rejected the scraper returns no
path and the caller raises the job-level `AbortScriptError`. -/
theorem scrape_examines_at_most_ten (fw : List (List Char))
    (picks : Nat → Candidate) :
    (scrape_vexels_image fw picks).2 ≤ 10 ∧
    (∀ p, (scrape_vexels_image fw picks).1 = some p →
      ∃ i, i < 10 ∧ acceptCandidate (fw.map lowerChars) (picks i) = true ∧
        p = (picks i).tempPath) ∧
    ((∀ i, i < 10 → acceptCandidate (fw.map lowerChars) (picks i) = false) →
      (scrape_vexels_image fw picks).1 = none ∧
      scrapeCallerResult (scrape_vexels_image fw picks).1 =
        Except.error "Error scraping the image from vexels.com") := by
  refine ⟨scrapeLoop_count_le _ picks 10 0, ?_, ?_⟩
  · intro p hp
    obtain ⟨i, _, hi2, hi3, hi4⟩ :=
      scrapeLoop_some_accepted (fw.map lowerChars) picks 10 0 p hp
    exact ⟨i, by omega, hi3, hi4⟩
  · intro hrej
    have hn : (scrape_vexels_image fw picks).1 = none :=
      scrapeLoop_all_rejected_none (fw.map lowerChars) picks 10 0
        (fun i _ h2 => hrej i (by omega))
    exact ⟨hn, by rw [hn]; rfl⟩

/-- Witness for C6: with every candidate failing to yield a title, the
scraper returns no path and the caller's check raises the abort. -/
theorem scrape_examines_at_most_ten_witness :
    (scrape_vexels_image [] (fun _ => ⟨true, [], false, false, "t"⟩)).1 =
      none :=
  ((scrape_examines_at_most_ten [] (fun _ => ⟨true, [], false, false, "t"⟩)).2.2
    (fun _ _ => rfl)).1

/-- A file name is its stem followed by its suffix. -/
theorem pathStem_append_pathSuffix (n : List Char) :
    pathStem n ++ pathSuffix n = n := by
  unfold pathStem pathSuffix
  cases h : lastDotIdx n with
  | none => simp
  | some i =>
    by_cases hp : properDot n i = true
    · simp [hp, List.take_append_drop]
    · simp [hp]

/-- A `pathlib` suffix is empty or starts with a dot. -/
theorem pathSuffix_shape (n : List Char) :
    pathSuffix n = [] ∨ ∃ r, pathSuffix n = '.' :: r := by
  unfold pathSuffix
  cases h : lastDotIdx n with
  | none => simp
  | some i =>
    by_cases hp : properDot n i = true
    · right
      have hmem : i ∈ dotIdxs n := by
        have hx : i ∈ (dotIdxs n).getLast? := by
          unfold lastDotIdx at h
          simp [h, Option.mem_def]
        obtain ⟨hne, heq⟩ := List.mem_getLast?_eq_getLast hx
        exact heq ▸ List.getLast_mem hne
      have hfil := List.mem_filter.mp hmem
      have hlt : i < n.length := List.mem_range.mp hfil.1
      have hdot : n[i]? = some '.' := by simpa using hfil.2
      cases hd : n.drop i with
      | nil =>
        exfalso
        have := List.drop_eq_nil_iff.mp hd
        omega
      | cons c r =>
        have hc : n[i]? = some c := by
          have h0 : (n.drop i)[0]? = n[i + 0]? := List.getElem?_drop n i 0
          rw [hd] at h0
          simpa using h0.symm
        have hcd : c = '.' := by
          rw [hc] at hdot
          exact (Option.some.injEq _ _ ▸ hdot : c = '.')
        refine ⟨r, ?_⟩
        simp [hp, hd, hcd]
    · left
      simp [hp]

/-- The name the upscaler saves under differs from the input name: the
input's suffix is empty or dot-initial, while `"_upscaled.png"` is
neither. -/
theorem upscaledName_ne (n : List Char) : upscaledName n ≠ n := by
  intro heq
  have hsplit : pathStem n ++ pathSuffix n = n := pathStem_append_pathSuffix n
  have hcat : pathStem n ++ "_upscaled.png".data = pathStem n ++ pathSuffix n := by
    rw [hsplit]
    exact heq
  have htag : "_upscaled.png".data = pathSuffix n := List.append_cancel_left hcat
  rcases pathSuffix_shape n with hnil | ⟨r, hr⟩
  · rw [hnil] at htag
    exact absurd htag (by decide)
  · rw [hr] at htag
    have h2 : ('_' :: "upscaled.png".data : List Char) = '.' :: r := by
      rw [← htag]
    injection h2 with hhead _
    exact absurd hhead (by decide)

/-- The upscale attempt loop returns the saved upscaled path exactly when
the first loop-ending outcome is a successful download, and the original
input path in every other case. -/
theorem upscaleLoop_characterization (input : ImagePath) (outDir : List String) :
    ∀ os : List UpscaleOutcome,
      upscaleLoop input outDir os =
        (if os.find? isTerminalOutcome == some UpscaleOutcome.successDownload
         then upscaledPath input outDir else input) := by
  intro os
  induction os with
  | nil => simp [upscaleLoop]
  | cons o rest ih =>
    cases o <;> simp [upscaleLoop, List.find?, isTerminalOutcome, ih]

/-- C7: `upscale` returns the original input path exactly when upscaling
was aborted (an image-too-big detection or the retry limit exhausted
without success), and on genuine success it returns the saved upscaled
file's path, which is never equal to the input path. -/
theorem upscale_original_iff_aborted (input : ImagePath) (outDir : List String)
    (outcomes : List UpscaleOutcome) :
    (upscale input outDir outcomes = input ↔
      upscaleSucceeded outcomes = false) ∧
    (upscaleSucceeded outcomes = true →
      upscale input outDir outcomes = upscaledPath input outDir ∧
      upscale input outDir outcomes ≠ input) := by
  have hne : upscaledPath input outDir ≠ input := by
    intro he
    exact upscaledName_ne input.name (congrArg ImagePath.name he)
  have key : upscale input outDir outcomes =
      (if upscaleSucceeded outcomes then upscaledPath input outDir
       else input) := by
    unfold upscale upscale_bigjpg upscaleSucceeded
    exact upscaleLoop_characterization input outDir (outcomes.take 3)
  cases hs : upscaleSucceeded outcomes with
  | false =>
    rw [hs] at key
    simp only [Bool.false_eq_true, if_false] at key
    refine ⟨⟨fun _ => rfl, fun _ => key⟩, fun ht => absurd ht (by simp [hs])⟩
  | true =>
    rw [hs] at key
    simp only [if_true] at key
    refine ⟨⟨fun he => ?_, fun hf => absurd hf (by simp [hs])⟩,
      fun _ => ⟨key, fun he => ?_⟩⟩
    · rw [key] at he
      exact absurd he hne
    · rw [key] at he
      exact absurd he hne

/-- Witness for C7: a run whose first attempt downloads successfully
returns a path different from the input path. -/
theorem upscale_original_iff_aborted_witness :
    upscaleSucceeded [UpscaleOutcome.successDownload] = true ∧
    upscale ⟨[], ['a']⟩ [] [UpscaleOutcome.successDownload] ≠ ⟨[], ['a']⟩ :=
  ⟨by decide,
    ((upscale_original_iff_aborted ⟨[], ['a']⟩ [] [UpscaleOutcome.successDownload]).2
      (by decide)).2⟩

end GenaiPod
